import Mathlib

/-!
Verification of the ArchMC dashboard backend (src/app.py): the in-memory
TTL cache, the upstream fetch helper, the player-stats transformer, and the
request handlers built from them.  Python dictionaries holding JSON data are
embedded as association lists over an inductive `Json` type; the module-level
mutable `cache` dictionary is embedded as an explicit cache state threaded
through the handlers; wall-clock time (`datetime.utcnow()`) is an explicit
`Nat` parameter counting seconds.
-/

namespace ArchMC

/-- A JSON-like Python value, as produced by `resp.json()`: `None`, booleans,
integers, strings, lists, and string-keyed dictionaries. -/
inductive Json where
  | null
  | bool (b : Bool)
  | int (n : Int)
  | str (s : String)
  | arr (elems : List Json)
  | obj (members : List (String × Json))

namespace Json

/-- Python truthiness of a value: `None`, `False`, `0`, `""`, `[]` and
`{}` (here `\x7b\x7d`) are falsy, everything else is truthy.  This is the test
performed by `if cached:` in the handlers. -/
def truthy : Json → Bool
  | .null => false
  | .bool b => b
  | .int n => n != 0
  | .str s => !s.isEmpty
  | .arr l => !l.isEmpty
  | .obj l => !l.isEmpty

/-- `isinstance(v, dict)`: true exactly on dictionary values. -/
def isDict : Json → Bool
  | .obj _ => true
  | _ => false

/-- The key/value pairs of a dictionary value (`data.items()`); scalars and
lists have none. -/
def fields : Json → List (String × Json)
  | .obj l => l
  | _ => []

end Json

/-- A single quote character, used by Python `repr` of strings. -/
def sq : String := String.singleton (Char.ofNat 39)

mutual

/-- Python `repr` of a JSON-like value (what `str` falls back to inside
containers): `None`, `True`/`False`, decimal integers, single-quoted
strings, bracketed lists and braced dicts. -/
def pyRepr : Json → String
  | .null => "None"
  | .bool true => "True"
  | .bool false => "False"
  | .int n => toString n
  | .str s => sq ++ s ++ sq
  | .arr l => "[" ++ pyReprArr l ++ "]"
  | .obj l => "\x7b" ++ pyReprObj l ++ "\x7d"

/-- Comma-separated `repr`s of the elements of a list. -/
def pyReprArr : List Json → String
  | [] => ""
  | [e] => pyRepr e
  | e :: es => pyRepr e ++ ", " ++ pyReprArr es

/-- Comma-separated `repr`s of the key/value pairs of a dict. -/
def pyReprObj : List (String × Json) → String
  | [] => ""
  | [(k, v)] => sq ++ k ++ sq ++ ": " ++ pyRepr v
  | (k, v) :: ms => sq ++ k ++ sq ++ ": " ++ pyRepr v ++ ", " ++ pyReprObj ms

end

/-- Python `str` of a value, as used by f-string interpolation
(`f"Wins: \x7bv\x7d"`): strings are used verbatim, everything else via `repr`. -/
def pyStr : Json → String
  | .str s => s
  | j => pyRepr j

/-- CACHE_TTL = 120 seconds. -/
def CACHE_TTL : Nat := 120

/-- One value of the module-level `cache` dictionary:
`\x7b"data": data, "expires": ...\x7d`. -/
structure Entry where
  data : Json
  expires : Nat

/-- The module-level `cache` dictionary, as a map from keys to entries. -/
abbrev Cache := String → Option Entry

/-- The initial empty cache (`cache = \x7b\x7d`). -/
def emptyCache : Cache := fun _ => none

/-- `get_cached(key)`: look the key up; if an entry is present and the current
time is strictly before its expiry, return its data, otherwise return `None`
(embedded as `Json.null`, since Python `None` is the null JSON value).  The
read never mutates the cache: the function takes the cache state and returns
only a value. -/
def get_cached (c : Cache) (key : String) (now : Nat) : Json :=
  match c key with
  | some entry => if now < entry.expires then entry.data else Json.null
  | none => Json.null

/-- `set_cache(key, data)`: overwrite the entry, expiring CACHE_TTL seconds
from now. -/
def set_cache (c : Cache) (key : String) (data : Json) (now : Nat) : Cache :=
  fun k => if k = key then some ⟨data, now + CACHE_TTL⟩ else c k

/-- An upstream HTTP response as `fetch_from_arch` observes it: the status
code, the body text (`resp.text`) and the parsed body (`resp.json()`). -/
structure UpstreamResponse where
  status_code : Nat
  text : String
  json : Json

/-- A raised `HTTPException(status_code, detail)`. -/
structure HTTPException where
  status_code : Nat
  detail : String
deriving DecidableEq

/-- The decision `fetch_from_arch` takes on the upstream response: raise
`HTTPException(resp.status_code, resp.text)` when the status is not 200,
otherwise return `resp.json()`. -/
def fetch_from_arch (resp : UpstreamResponse) : Except HTTPException Json :=
  if resp.status_code ≠ 200 then Except.error ⟨resp.status_code, resp.text⟩
  else Except.ok resp.json

/-- The dict returned by `process_player_data`: it always has exactly the keys
`"username"`, `"highlights"` and `"modes"`, so it is embedded as a record. -/
structure PlayerView where
  username : String
  highlights : List String
  modes : List (String × Json)

/-- `process_player_data(username, data)`: collect the `"Wins: ..."` and
`"ELO: ..."` highlight lines from the two known statistic keys (falling back
to the sentinel when the list would be empty, via `highlights or [...]`), and
keep exactly the dict-valued entries of `data` as `modes`. -/
def process_player_data (username : String) (data : List (String × Json)) :
    PlayerView :=
  let highlights :=
    (match data.lookup "wins:global:casual:lifetime" with
     | some v => ["Wins: " ++ pyStr v]
     | none => []) ++
    (match data.lookup "elo:nodebuff:ranked:lifetime" with
     | some v => ["ELO: " ++ pyStr v]
     | none => [])
  { username := username
    highlights := if highlights.isEmpty then ["No highlights available"] else highlights
    modes := data.filter fun kv => kv.2.isDict }

/-- The dict literally returned by `process_player_data` (handlers cache and
return it as a JSON value). -/
def PlayerView.toJson (v : PlayerView) : Json :=
  Json.obj [("username", Json.str v.username),
            ("highlights", Json.arr (v.highlights.map Json.str)),
            ("modes", Json.obj v.modes)]

/-- F-string interpolation of an optional string (`f"...\x7bfilter\x7d..."`):
Python renders `None` as `"None"`. -/
def optStr : Option String → String
  | none => "None"
  | some s => s

/-- Python truthiness of an optional string: `None` and `""` are falsy. -/
def truthyOpt : Option String → Bool
  | none => false
  | some s => !s.isEmpty

/-- Python `a or b` on an optional string: the string itself when truthy,
otherwise the default. -/
def orElse : Option String → String → String
  | none, d => d
  | some s, d => if s.isEmpty then d else s

/-- What one handler invocation produces: the response value, the cache state
after the call, and the list of upstream endpoints fetched during it. -/
structure HandlerResult where
  response : Json
  cache : Cache
  calls : List String

/-- The cache key of `player_stats`: `f"player:\x7busername\x7d:\x7bfilter\x7d"`. -/
def playerKey (username : String) (filter : Option String) : String :=
  "player:" ++ username ++ ":" ++ optStr filter

/-- The upstream endpoint `player_stats` fetches:
`f"/players/username/\x7busername\x7d/statistics"`. -/
def playerEndpoint (username : String) : String :=
  "/players/username/" ++ username ++ "/statistics"

/-- Handler `GET /api/player/\x7busername\x7d`: serve a truthy cached value as
is; otherwise fetch the statistics payload from the upstream (modelled by
`up`, the JSON a successful fetch returns per endpoint; a failed fetch raises
out of the handler before any cache write, which no claim here concerns),
transform it, cache and return the transformed dict. -/
def player_stats (username : String) (filter : Option String) (c : Cache)
    (now : Nat) (up : String → Json) : HandlerResult :=
  let key := playerKey username filter
  let cached := get_cached c key now
  if cached.truthy then ⟨cached, c, []⟩
  else
    let raw := up (playerEndpoint username)
    let processed := (process_player_data username raw.fields).toJson
    ⟨processed, set_cache c key processed now, [playerEndpoint username]⟩

/-- The cache key of `economy`: `f"economy:\x7busername or 'baltop'\x7d"`. -/
def economyKey (username : Option String) : String :=
  "economy:" ++ orElse username "baltop"

/-- The upstream endpoint `economy` fetches: per-player economy when the
username is truthy (`if username:`), baltop otherwise. -/
def economyEndpoint (username : Option String) : String :=
  if truthyOpt username then "/economy/player/username/" ++ orElse username ""
  else "/economy/baltop"

/-- Handler `GET /api/economy/\x7busername\x7d`: serve a truthy cached value
as is; otherwise fetch the per-player economy payload when the username is
truthy and the baltop payload when it is not, cache and return it raw. -/
def economy (username : Option String) (c : Cache) (now : Nat)
    (up : String → Json) : HandlerResult :=
  let key := economyKey username
  let cached := get_cached c key now
  if cached.truthy then ⟨cached, c, []⟩
  else
    let data := up (economyEndpoint username)
    ⟨data, set_cache c key data now, [economyEndpoint username]⟩

/-- What `guild_search` does with its two query parameters: either a single
upstream fetch of an endpoint with a `q` query value, or a raised
`HTTPException` before any fetch. -/
inductive GuildSearchAction where
  | fetchQ (endpoint : String) (q : String)
  | badRequest (status_code : Nat) (detail : String)
deriving DecidableEq

/-- Handler `GET /api/guilds/search`: search by name when `name` is truthy,
else by description when `description` is truthy, else raise
`HTTPException(400, ...)`. -/
def guild_search (name description : Option String) : GuildSearchAction :=
  if truthyOpt name then .fetchQ "/guilds/search/name" (orElse name "")
  else if truthyOpt description then
    .fetchQ "/guilds/search/description" (orElse description "")
  else .badRequest 400 "Provide either name or description"

/-! ## Claims -/

/-- Claim C1: for every key and value, `get_cached` after `set_cache` at any
time strictly before the 120-second expiry returns exactly the value set, and
at or after the expiry returns absent (`None`). -/
theorem cache_roundtrip (c : Cache) (key : String) (v : Json) (t0 t : Nat) :
    (t < t0 + CACHE_TTL → get_cached (set_cache c key v t0) key t = v) ∧
    (t0 + CACHE_TTL ≤ t → get_cached (set_cache c key v t0) key t = Json.null) := by
  refine ⟨fun h => ?_, fun h => ?_⟩ <;>
    simp [get_cached, set_cache, h, Nat.not_lt.mpr h]

/-- Witness for C1: a value set at time 10 is read back at time 100 and
absent at time 130. -/
theorem cache_roundtrip_witness :
    get_cached (set_cache emptyCache "player:alice:None" (Json.int 7) 10)
      "player:alice:None" 100 = Json.int 7 ∧
    get_cached (set_cache emptyCache "player:alice:None" (Json.int 7) 10)
      "player:alice:None" 130 = Json.null :=
  ⟨(cache_roundtrip emptyCache "player:alice:None" (Json.int 7) 10 100).1 (by decide),
   (cache_roundtrip emptyCache "player:alice:None" (Json.int 7) 10 130).2 (by decide)⟩

/-- Claim C2: a cache read never returns the data of an entry whose expiry is
at or before the current time; such an entry reads as absent.  (The read does
not remove the entry: `get_cached` takes the cache state and returns only a
value, leaving the map untouched, exactly as the source reads
`cache.get(key)` without mutation.) -/
theorem get_cached_expired_absent (c : Cache) (key : String) (t : Nat)
    (e : Entry) (hentry : c key = some e) (hexp : e.expires ≤ t) :
    get_cached c key t = Json.null := by
  simp [get_cached, hentry, Nat.not_lt.mpr hexp]

/-- Witness for C2: an entry written at time 0 has expiry 120 and reads as
absent at time 120 although it is still in the map. -/
theorem get_cached_expired_absent_witness :
    get_cached (set_cache emptyCache "k" (Json.int 3) 0) "k" 120 = Json.null :=
  get_cached_expired_absent (set_cache emptyCache "k" (Json.int 3) 0) "k" 120
    ⟨Json.int 3, 120⟩ rfl (by decide)

/-- Counterexample to C3 as stated: the upstream status 201 is a success
(2xx) status, yet `fetch_from_arch` raises an `HTTPException` carrying it,
because the source tests `resp.status_code != 200`, not non-2xx. -/
theorem fetch_raises_on_201 :
    fetch_from_arch ⟨201, "created", Json.null⟩ = Except.error ⟨201, "created"⟩ ∧
    200 ≤ 201 ∧ 201 < 300 :=
  ⟨rfl, by decide⟩

/-- Claim C3 (amended): `fetch_from_arch` fails with an error carrying the
upstream status code and body text if and only if the upstream status is not
exactly 200; on status 200 it returns the parsed JSON body. -/
theorem fetch_raises_iff_not_200 (r : UpstreamResponse) :
    (fetch_from_arch r = Except.error ⟨r.status_code, r.text⟩ ↔ r.status_code ≠ 200) ∧
    (fetch_from_arch r = Except.ok r.json ↔ r.status_code = 200) := by
  by_cases h : r.status_code = 200 <;> simp [fetch_from_arch, h]

/-- Witness for the amended C3: a 404 response raises the error carrying 404
and the body, and a 200 response returns its parsed body. -/
theorem fetch_raises_iff_not_200_witness :
    fetch_from_arch ⟨404, "not found", Json.null⟩
      = Except.error ⟨404, "not found"⟩ ∧
    fetch_from_arch ⟨200, "ok", Json.int 1⟩ = Except.ok (Json.int 1) :=
  ⟨(fetch_raises_iff_not_200 ⟨404, "not found", Json.null⟩).1.mpr (by decide),
   (fetch_raises_iff_not_200 ⟨200, "ok", Json.int 1⟩).2.mpr rfl⟩

/-- Claim C4: the highlights of `process_player_data` are a `"Wins: ..."`
line exactly when the wins key is present, followed by an `"ELO: ..."` line
exactly when the elo key is present, and exactly the sentinel when neither
is; in particular the payload `\x7b"wins:global:casual:lifetime": 42\x7d`
yields `["Wins: 42"]` and the empty payload yields
`["No highlights available"]`. -/
theorem process_highlights (u : String) (d : List (String × Json)) :
    (process_player_data u d).highlights =
      (match d.lookup "wins:global:casual:lifetime",
             d.lookup "elo:nodebuff:ranked:lifetime" with
       | some w, some e => ["Wins: " ++ pyStr w, "ELO: " ++ pyStr e]
       | some w, none => ["Wins: " ++ pyStr w]
       | none, some e => ["ELO: " ++ pyStr e]
       | none, none => ["No highlights available"]) ∧
    (process_player_data u [("wins:global:casual:lifetime", Json.int 42)]).highlights
      = ["Wins: 42"] ∧
    (process_player_data u []).highlights = ["No highlights available"] := by
  refine ⟨?_, rfl, rfl⟩
  cases hw : d.lookup "wins:global:casual:lifetime" <;>
    cases he : d.lookup "elo:nodebuff:ranked:lifetime" <;>
      simp [process_player_data, hw, he]

/-- Claim C5: the modes of `process_player_data` contain exactly the
dict-valued entries of the payload, each key bound to its original nested
value; in particular `\x7b"a": 1, "b": \x7b"x": 1\x7d\x7d` yields modes
`\x7b"b": \x7b"x": 1\x7d\x7d`. -/
theorem process_modes (u : String) (d : List (String × Json)) :
    (∀ k v, (k, v) ∈ (process_player_data u d).modes ↔
      (k, v) ∈ d ∧ v.isDict = true) ∧
    (process_player_data u
      [("a", Json.int 1), ("b", Json.obj [("x", Json.int 1)])]).modes
      = [("b", Json.obj [("x", Json.int 1)])] := by
  refine ⟨fun k v => ?_, rfl⟩
  simp [process_player_data, List.mem_filter]

/-- Claim C6: `guild_search` raises `HTTPException(400, ...)` when both
parameters are absent or empty, and raises no 400 when at least one is
supplied non-empty (the result is then an upstream fetch, so the Upstream
Client is not consulted on the 400 path). -/
theorem guild_search_400_iff (name description : Option String) :
    (truthyOpt name = false → truthyOpt description = false →
      guild_search name description
        = .badRequest 400 "Provide either name or description") ∧
    (truthyOpt name = true ∨ truthyOpt description = true →
      ∀ s d, guild_search name description ≠ .badRequest s d) := by
  constructor
  · intro hn hd; simp [guild_search, hn, hd]
  · rintro (h | h) s d <;> by_cases hn : truthyOpt name = true <;>
      simp [guild_search, h, hn]

/-- Witness for C6: no parameters raise a 400; a non-empty name never does. -/
theorem guild_search_400_iff_witness :
    guild_search none none
      = .badRequest 400 "Provide either name or description" ∧
    ∀ s d, guild_search (some "alpha") none ≠ .badRequest s d :=
  ⟨(guild_search_400_iff none none).1 rfl rfl,
   (guild_search_400_iff (some "alpha") none).2 (Or.inl rfl)⟩

/-- Claim C7: after a first `player_stats` request that misses the cache and
stores its result, a repeated request with the same username and filter
strictly within the TTL returns the identical value, fetches no upstream
endpoint, and leaves the cache unchanged. -/
theorem player_stats_idempotent (username : String) (filter : Option String)
    (c : Cache) (t1 t2 : Nat) (up1 up2 : String → Json)
    (hmiss : (get_cached c (playerKey username filter) t1).truthy = false)
    (httl : t2 < t1 + CACHE_TTL) :
    (player_stats username filter
        (player_stats username filter c t1 up1).cache t2 up2).response
      = (player_stats username filter c t1 up1).response ∧
    (player_stats username filter
        (player_stats username filter c t1 up1).cache t2 up2).calls = [] ∧
    (player_stats username filter
        (player_stats username filter c t1 up1).cache t2 up2).cache
      = (player_stats username filter c t1 up1).cache := by
  have hm : player_stats username filter c t1 up1 =
      ⟨(process_player_data username (up1 (playerEndpoint username)).fields).toJson,
        set_cache c (playerKey username filter)
          ((process_player_data username (up1 (playerEndpoint username)).fields).toJson) t1,
        [playerEndpoint username]⟩ := by
    simp [player_stats, hmiss]
  have hget : get_cached (set_cache c (playerKey username filter)
      ((process_player_data username (up1 (playerEndpoint username)).fields).toJson) t1)
      (playerKey username filter) t2
      = (process_player_data username (up1 (playerEndpoint username)).fields).toJson := by
    simp [get_cached, set_cache, httl]
  have htr : ((process_player_data username
      (up1 (playerEndpoint username)).fields).toJson).truthy = true := rfl
  rw [hm]
  simp [player_stats, hget, htr]

/-- Witness for C7: after a miss at time 0, the request repeated at time 60
fetches nothing. -/
theorem player_stats_idempotent_witness :
    (player_stats "alice" none
      (player_stats "alice" none emptyCache 0
        (fun _ => Json.obj [("wins:global:casual:lifetime", Json.int 5)])).cache
      60 (fun _ => Json.null)).calls = [] :=
  (player_stats_idempotent "alice" none emptyCache 0 60
    (fun _ => Json.obj [("wins:global:casual:lifetime", Json.int 5)])
    (fun _ => Json.null) rfl (by decide)).2.1

/-- Claim C8: on a cache miss, `economy` with a non-empty username returns
the JSON fetched from the per-player economy endpoint, and with the username
omitted returns the JSON fetched from the baltop endpoint. -/
theorem economy_dispatch (username : Option String) (c : Cache) (t : Nat)
    (up : String → Json)
    (hmiss : (get_cached c (economyKey username) t).truthy = false) :
    (∀ s, username = some s → s.isEmpty = false →
      (economy username c t up).response = up ("/economy/player/username/" ++ s) ∧
      (economy username c t up).calls = ["/economy/player/username/" ++ s]) ∧
    (username = none →
      (economy username c t up).response = up "/economy/baltop" ∧
      (economy username c t up).calls = ["/economy/baltop"]) := by
  constructor
  · rintro s rfl hs
    have he : economyEndpoint (some s) = "/economy/player/username/" ++ s := by
      simp [economyEndpoint, truthyOpt, orElse, hs]
    simp [economy, hmiss, he]
  · rintro rfl
    simp [economy, hmiss, economyEndpoint, truthyOpt]

/-- Witness for C8: with an empty cache, the username `"bob"` routes to the
per-player endpoint and no username routes to baltop. -/
theorem economy_dispatch_witness :
    (economy (some "bob") emptyCache 0 (fun e => Json.str e)).response
      = Json.str "/economy/player/username/bob" ∧
    (economy none emptyCache 0 (fun e => Json.str e)).response
      = Json.str "/economy/baltop" :=
  ⟨((economy_dispatch (some "bob") emptyCache 0 (fun e => Json.str e) rfl).1
      "bob" rfl rfl).1,
   ((economy_dispatch none emptyCache 0 (fun e => Json.str e) rfl).2 rfl).1⟩

/-- Claim C9: a falsy value stored in the cache behaves as a miss on the
cached endpoints: even with an unexpired entry present, `player_stats` and
`economy` fetch the upstream again and overwrite the entry. -/
theorem falsy_cached_is_miss (c : Cache) (t : Nat) (up : String → Json)
    (username : String) (filter : Option String) (uo : Option String)
    (e1 e2 : Entry) :
    (c (playerKey username filter) = some e1 → t < e1.expires →
      e1.data.truthy = false →
      (player_stats username filter c t up).calls = [playerEndpoint username] ∧
      (player_stats username filter c t up).cache (playerKey username filter)
        = some ⟨(process_player_data username
            (up (playerEndpoint username)).fields).toJson, t + CACHE_TTL⟩) ∧
    (c (economyKey uo) = some e2 → t < e2.expires → e2.data.truthy = false →
      (economy uo c t up).calls = [economyEndpoint uo] ∧
      (economy uo c t up).cache (economyKey uo)
        = some ⟨up (economyEndpoint uo), t + CACHE_TTL⟩) := by
  constructor
  · intro h1 h2 h3
    have hmiss : (get_cached c (playerKey username filter) t).truthy = false := by
      simp [get_cached, h1, h2, h3]
    simp [player_stats, hmiss, set_cache]
  · intro h1 h2 h3
    have hmiss : (get_cached c (economyKey uo) t).truthy = false := by
      simp [get_cached, h1, h2, h3]
    simp [economy, hmiss, set_cache]

/-- Witness for C9: a cache holding the falsy values `\x7b\x7d` and `[]`
(both unexpired at time 50) makes both handlers fetch again. -/
theorem falsy_cached_is_miss_witness :
    (player_stats "alice" none
      (set_cache (set_cache emptyCache (playerKey "alice" none) (Json.obj []) 0)
        (economyKey (some "bob")) (Json.arr []) 0) 50 (fun _ => Json.null)).calls
      = [playerEndpoint "alice"] ∧
    (economy (some "bob")
      (set_cache (set_cache emptyCache (playerKey "alice" none) (Json.obj []) 0)
        (economyKey (some "bob")) (Json.arr []) 0) 50 (fun _ => Json.null)).calls
      = [economyEndpoint (some "bob")] :=
  ⟨((falsy_cached_is_miss
      (set_cache (set_cache emptyCache (playerKey "alice" none) (Json.obj []) 0)
        (economyKey (some "bob")) (Json.arr []) 0) 50 (fun _ => Json.null)
      "alice" none (some "bob") ⟨Json.obj [], 120⟩ ⟨Json.arr [], 120⟩).1
      rfl (by decide) rfl).1,
   ((falsy_cached_is_miss
      (set_cache (set_cache emptyCache (playerKey "alice" none) (Json.obj []) 0)
        (economyKey (some "bob")) (Json.arr []) 0) 50 (fun _ => Json.null)
      "alice" none (some "bob") ⟨Json.obj [], 120⟩ ⟨Json.arr [], 120⟩).2
      rfl (by decide) rfl).1⟩

/-- Claim C10: when both `name` and `description` are supplied non-empty,
`guild_search` fetches only the search-by-name endpoint with the name value;
the description is ignored. -/
theorem guild_search_name_precedence (n d : String)
    (hn : n.isEmpty = false) (hd : d.isEmpty = false) :
    guild_search (some n) (some d) = .fetchQ "/guilds/search/name" n := by
  simp [guild_search, truthyOpt, orElse, hn]

/-- Witness for C10: both parameters given, only the name is searched. -/
theorem guild_search_name_precedence_witness :
    guild_search (some "alpha") (some "beta")
      = .fetchQ "/guilds/search/name" "alpha" :=
  guild_search_name_precedence "alpha" "beta" rfl rfl

end ArchMC
